import Mathlib

/-!
Verification of the authentication & authorization subsystem of the NGO
records-management backend (Express/PostgreSQL).  The definitions below are a
shallow embedding of `backend/middleware/auth.js`, `backend/routes/users.js`,
`backend/routes/volunteers.js` and `backend/routes/board.js`: machine time is
Nat milliseconds, the relational store is an explicit `Db` record threaded
through each handler, the external JWT library is a `verify`/`sign` function
parameter, and bcrypt comparison is a `compare` function parameter.
-/

namespace Ngo

/-- HTTP methods handled by the RBAC table in `auth.js`. -/
inductive Method
  | GET | POST | PUT | PATCH | DELETE
deriving DecidableEq, Repr

/-- Verified principal attached to `req.user` by `verifyToken`
(fields `user_id`, `email`, `role` of the decoded JWT payload). -/
structure Principal where
  user_id : Nat
  email : String
  role : String
deriving DecidableEq, Repr

/-- Row of the `users` table (the columns read or written by the auth
subsystem; `created_at`/`updated_at` bookkeeping columns are not read by any
decision and are omitted). `locked_until` is a millisecond timestamp. -/
structure Account where
  user_id : Nat
  username : String
  email : String
  password_hash : String
  user_role : String
  approval_status : String
  failed_attempts : Nat
  locked_until : Option Nat
deriving DecidableEq, Repr

/-- Row of the `refresh_tokens` table. -/
structure RefreshRow where
  user_id : Nat
  refresh_token : String
  issued_at : Nat
  expires_at : Nat
  device : Option String
deriving DecidableEq, Repr

/-- The durable store: `users`, `refresh_tokens` and the `revoked_tokens`
set (the latter kept as the list of raw token strings). -/
structure Db where
  users : List Account
  refresh_tokens : List RefreshRow
  revoked_tokens : List String
deriving DecidableEq, Repr

/-- Character-level splitting on a single separator, the semantics of the
JavaScript `split` with a one-character separator (`''.split(s) = ['']`). -/
def splitOnChar (sep : Char) : List Char → List (List Char)
  | [] => [[]]
  | c :: cs =>
    match splitOnChar sep cs with
    | [] => if c = sep then [[], []] else [[c]]
    | seg :: segs => if c = sep then [] :: seg :: segs else (c :: seg) :: segs

/-- Token extraction of `verifyToken` (`auth.js`): try the
`Authorization: Bearer ...` header first (`startsWith('Bearer ')` then
`slice(7)`), then the HttpOnly `access_token` cookie; an empty extracted
string is falsy in the source and counts as missing. -/
def extractToken (authHeader : String) (cookieToken : Option String) : Option String :=
  let headerToken : Option String :=
    match authHeader.data with
    | 'B' :: 'e' :: 'a' :: 'r' :: 'e' :: 'r' :: ' ' :: rest =>
      if rest = [] then none else some ⟨rest⟩
    | _ => none
  match headerToken with
  | some t => some t
  | none =>
    match cookieToken with
    | some c => if c = "" then none else some c
    | none => none

/-- Result of the authentication middleware: either a verified principal is
attached, or the request is short-circuited with a status and message. -/
inductive AuthResult
  | ok (p : Principal)
  | reject (status : Nat) (msg : String)
deriving DecidableEq, Repr

/-- The `verifyToken` middleware (`auth.js`): extract the token, consult the
`revoked_tokens` table, then verify signature/expiry (the external
`jwt.verify`, modelled by the `verify` parameter returning the decoded
payload on success). -/
def verifyToken (revoked : List String) (verify : String → Option Principal)
    (authHeader : String) (cookieToken : Option String) : AuthResult :=
  match extractToken authHeader cookieToken with
  | none => .reject 401 "Missing token"
  | some token =>
    if token ∈ revoked then .reject 401 "Token revoked. Please log in again."
    else
      match verify token with
      | some decoded => .ok decoded
      | none => .reject 401 "Invalid or expired token"

/-- Result of a gate middleware: pass control to the next handler or reject. -/
inductive GateResult
  | next
  | reject (status : Nat) (msg : String)
deriving DecidableEq, Repr

/-- The fixed role-to-verb table inside `rbacAccess` (`auth.js`); `none` for a
role absent from the table. -/
def rbacRules (role : String) : Option (Method → Bool) :=
  if role = "member" then
    some fun m => match m with | .GET => true | _ => false
  else if role = "staff" then
    some fun m => match m with | .DELETE => false | _ => true
  else if role = "admin" then
    some fun _ => true
  else if role = "finance" then
    some fun m => match m with | .GET => true | .POST => true | _ => false
  else if role = "super_admin" then
    some fun _ => true
  else none

/-- The middleware returned by `rbacAccess(...)` (`auth.js`).  The source
function declares no formal parameter, so whatever argument list a call site
passes is dropped; the middleware decides from `req.user?.role` (falsy —
missing or empty — yields 401) and the request method alone.  The source
interpolates the role into the 403 messages inside single quotes; the
interpolation is kept, the quote characters are not. -/
def rbacAccess (_allowedRoles : List String) (role : Option String) (method : Method) :
    GateResult :=
  match role with
  | none => .reject 401 "Unauthorized: no role"
  | some r =>
    if r = "" then .reject 401 "Unauthorized: no role"
    else
      match rbacRules r with
      | none => .reject 403 ("Role " ++ r ++ " not recognized")
      | some rules =>
        if rules method then .next
        else .reject 403 ("Role " ++ r ++ " not allowed to " ++ (reprStr method))

/-- Owner-column configuration of one entity in `requireOwnerOrAdmin`. -/
structure OwnerCfg where
  table : String
  idcol : String
  ownercol : String
deriving DecidableEq, Repr

/-- The `map` literal inside `requireOwnerOrAdmin` (`auth.js`), keyed by the
entity name. -/
def ownerMap (entity : String) : Option OwnerCfg :=
  if entity = "students_frf_owner" then some ⟨"students", "id", "student_frf_owner"⟩
  else if entity = "volunteers_frf_owner" then some ⟨"volunteers", "id", "volunteer_frf_owner"⟩
  else if entity = "donors_frf_owner" then some ⟨"donors", "id", "donor_frf_owner"⟩
  else if entity = "board_frf_owner" then some ⟨"board_members", "id", "board_frf_owner"⟩
  else if entity = "projects_frf_owner" then some ⟨"projects", "id", "project_frf_owner"⟩
  else if entity = "finance_frf_owner" then some ⟨"finance_reports", "id", "finance_report_frf_owner"⟩
  else none

/-- The entity name computed from `req.baseUrl` in `requireOwnerOrAdmin`:
`req.baseUrl.split('/')` and take the last element. -/
def lastSegment (baseUrl : String) : String :=
  ⟨(splitOnChar '/' baseUrl.data).getLastD []⟩

/-- The `requireOwnerOrAdmin` middleware (`auth.js`).  `store` models the
parameterized `SELECT ownercol FROM table WHERE idcol = $1 LIMIT 1` lookup:
it receives table, id column, owner column and the record id and returns the
owner-column value of the matching row, or `none` when no row matches.  The
owner comparison in the source is `String(...) === String(...)`; owner values
are kept as strings and the numeric account id is rendered with `toString`. -/
def requireOwnerOrAdmin (store : String → String → String → String → Option String)
    (user : Option Principal) (baseUrl : String) (paramId : Option String) : GateResult :=
  match user with
  | none => .reject 401 "Unauthorized"
  | some p =>
    if p.role = "admin" ∨ p.role = "staff" ∨ p.role = "super_admin" then .next
    else
      let entity := lastSegment baseUrl
      match ownerMap entity with
      | none => .reject 400 "requireOwnerOrAdmin: unknown entity"
      | some cfg =>
        match paramId with
        | none => .reject 400 "Missing resource id"
        | some recordId =>
          match store cfg.table cfg.idcol cfg.ownercol recordId with
          | none => .reject 404 "Record not found"
          | some recordOwner =>
            if recordOwner = p.email ∨ recordOwner = toString p.user_id then .next
            else .reject 403 "Forbidden: not owner"

/-- Refresh-session lifetime: `REFRESH_TOKEN_EXPIRES_DAYS` defaults to 30 in
`routes/users.js`; the row expiry is `now + REFRESH_DAYS` days in
milliseconds. -/
def refreshDays : Nat := 30

/-- The lockout interval set on the fifth consecutive failure:
`NOW() + INTERVAL '15 minutes'`, in milliseconds. -/
def lockIntervalMs : Nat := 15 * 60 * 1000

/-- The lockout condition of `POST /login`
(`user.locked_until && new Date(user.locked_until) > new Date()`). -/
def lockActive (lockedUntil : Option Nat) (now : Nat) : Bool :=
  match lockedUntil with
  | some l => decide (now < l)
  | none => false

/-- Lookup `SELECT * FROM users WHERE email = $1` (first matching row). -/
def findUserByEmail (db : Db) (email : String) : Option Account :=
  db.users.find? (fun u => u.email == email)

/-- Response of `POST /login`: status, body message or error, and the two
`res.cookie` effects (the cookie values; flags/maxAge carry no decision). -/
structure LoginResp where
  status : Nat
  message : Option String
  error : Option String
  accessCookie : Option String
  refreshCookie : Option String
deriving DecidableEq, Repr

/-- The access-token payload signed by `createAccessToken`
(`{ user_id, email, role: user_role }`); `sign` models `jwt.sign`. -/
def createAccessToken (sign : Principal → String) (u : Account) : String :=
  sign ⟨u.user_id, u.email, u.user_role⟩

/-- The `POST /login` handler (`routes/users.js`), in source order: user
lookup by email, approval gate, lockout gate, bcrypt comparison (the external
`bcrypt.compare`, modelled by `compare password hash`), then either the
failure-recording branch or the success branch.  `now` is the request time in
milliseconds, `newRefreshToken` the freshly generated `uuidv4()` value and
`device` the `user-agent` header.  Returns the response and the new store. -/
def login (compare : String → String → Bool) (sign : Principal → String)
    (now : Nat) (newRefreshToken : String) (device : Option String)
    (db : Db) (email password : String) : LoginResp × Db :=
  match findUserByEmail db email with
  | none => (⟨401, none, some "Invalid credentials", none, none⟩, db)
  | some user =>
    if user.approval_status ≠ "APPROVED" then
      let msg := if user.approval_status = "REJECTED"
        then "Account has been rejected by admin"
        else "Account pending admin approval"
      (⟨403, none, some msg, none, none⟩, db)
    else if lockActive user.locked_until now then
      let lu := user.locked_until.getD 0
      let mins := (lu - now + 59999) / 60000
      (⟨403, none, some ("Account locked. Try again in " ++ toString mins ++ " minutes."),
        none, none⟩, db)
    else if compare password user.password_hash then
      let users2 := db.users.map fun u =>
        if u.user_id == user.user_id then { u with failed_attempts := 0, locked_until := none }
        else u
      let row : RefreshRow :=
        ⟨user.user_id, newRefreshToken, now, now + refreshDays * 24 * 60 * 60 * 1000, device⟩
      (⟨200, some "Login successful", none,
        some (createAccessToken sign user), some newRefreshToken⟩,
       { db with users := users2, refresh_tokens := db.refresh_tokens ++ [row] })
    else
      let attempts := user.failed_attempts + 1
      let users2 := db.users.map fun u =>
        if u.user_id == user.user_id then
          if attempts ≥ 5 then
            { u with failed_attempts := attempts, locked_until := some (now + lockIntervalMs) }
          else { u with failed_attempts := attempts }
        else u
      (⟨401, none, some "Invalid credentials", none, none⟩, { db with users := users2 })

/-- Response of `POST /refresh`. -/
structure RefreshResp where
  status : Nat
  error : Option String
  accessCookie : Option String
deriving DecidableEq, Repr

/-- The `POST /refresh` handler (`routes/users.js`): read the
`refresh_token` cookie (an empty value is falsy and counts as missing), look
up an unexpired session row (`refresh_token=$1 AND expires_at > NOW()`), look
up the owning user, mint a new access token.  The handler performs no write
to the store in any branch. -/
def refresh (sign : Principal → String) (now : Nat)
    (db : Db) (cookieToken : Option String) : RefreshResp × Db :=
  let token? : Option String :=
    match cookieToken with
    | some t => if t = "" then none else some t
    | none => none
  match token? with
  | none => (⟨400, some "Missing refresh token", none⟩, db)
  | some token =>
    match db.refresh_tokens.find?
        (fun r => r.refresh_token == token && decide (now < r.expires_at)) with
    | none => (⟨401, some "Invalid refresh token", none⟩, db)
    | some row =>
      match db.users.find? (fun u => u.user_id == row.user_id) with
      | none => (⟨401, some "User not found", none⟩, db)
      | some user => (⟨200, none, some (createAccessToken sign user)⟩, db)

/-- The `ON CONFLICT DO NOTHING` insert into `revoked_tokens` performed by
`POST /logout`. -/
def revokeInsert (revoked : List String) (token : String) : List String :=
  if token ∈ revoked then revoked else revoked ++ [token]

/-- Response of `POST /logout` (both cookies are always cleared). -/
structure LogoutResp where
  status : Nat
  clearedAccessCookie : Bool
  clearedRefreshCookie : Bool
deriving DecidableEq, Repr

/-- The `POST /logout` handler (`routes/users.js`): the refresh token comes
from its cookie; the access token from its cookie, falling back to
`authorization.split(' ')[1]`; empty strings are falsy.  Deletes the matching
refresh-session rows and inserts the access token into `revoked_tokens`. -/
def logout (db : Db) (refreshCookie accessCookie authHeader : Option String) :
    LogoutResp × Db :=
  let nonEmpty : Option String → Option String := fun o =>
    match o with
    | some t => if t = "" then none else some t
    | none => none
  let refreshToken := nonEmpty refreshCookie
  let accessToken := nonEmpty
    (match nonEmpty accessCookie with
     | some t => some t
     | none =>
       match authHeader with
       | some h => ((splitOnChar ' ' h.data).get? 1).map (fun l => (⟨l⟩ : String))
       | none => none)
  let db1 := match refreshToken with
    | some rt => { db with refresh_tokens :=
        db.refresh_tokens.filter (fun r => r.refresh_token != rt) }
    | none => db
  let db2 := match accessToken with
    | some tok => { db1 with revoked_tokens := revokeInsert db1.revoked_tokens tok }
    | none => db1
  (⟨200, true, true⟩, db2)

/-- Outcome of `GET /pending`: middleware rejection, or the handler result
(the rows with `approval_status = 'PENDING'`; the source projects a few
columns and orders by `created_at`, which changes presentation only). -/
inductive PendingResult
  | rejected (status : Nat) (msg : String)
  | rows (accounts : List Account)
deriving DecidableEq, Repr

/-- The `GET /pending` route (`routes/users.js`): the chain
`verifyToken, rbacAccess(['admin','super_admin']), handler`. -/
def getPending (verify : String → Option Principal)
    (authHeader : String) (cookieToken : Option String) (db : Db) : PendingResult :=
  match verifyToken db.revoked_tokens verify authHeader cookieToken with
  | .reject s m => .rejected s m
  | .ok p =>
    match rbacAccess ["admin", "super_admin"] (some p.role) .GET with
    | .reject s m => .rejected s m
    | .next => .rows (db.users.filter (fun u => u.approval_status == "PENDING"))

/-- Outcome of `POST /:id/approve` and `POST /:id/reject`. -/
inductive ApprovalResult
  | rejected (status : Nat) (msg : String)
  | notFound
  | done (updated : Account)
deriving DecidableEq, Repr

/-- The `POST /:id/approve` route (`routes/users.js`): the chain
`verifyToken, rbacAccess(['admin','super_admin'])`, then
`UPDATE users SET approval_status='APPROVED' WHERE user_id=$1 RETURNING ...`;
no matching row yields 404.  The approval e-mail is a best-effort external
side effect whose failure is swallowed and is not modelled. -/
def approveUser (verify : String → Option Principal)
    (authHeader : String) (cookieToken : Option String)
    (db : Db) (id : Nat) : ApprovalResult × Db :=
  match verifyToken db.revoked_tokens verify authHeader cookieToken with
  | .reject s m => (.rejected s m, db)
  | .ok p =>
    match rbacAccess ["admin", "super_admin"] (some p.role) .POST with
    | .reject s m => (.rejected s m, db)
    | .next =>
      match db.users.find? (fun u => u.user_id == id) with
      | none => (.notFound, db)
      | some target =>
        let updated := { target with approval_status := "APPROVED" }
        let users2 := db.users.map fun u =>
          if u.user_id == id then { u with approval_status := "APPROVED" } else u
        (.done updated, { db with users := users2 })

/-- Generic route response: status plus message. -/
structure RouteResp where
  status : Nat
  message : Option String
deriving DecidableEq, Repr

/-- The `DELETE /:id` handler of `routes/users.js`, run after `verifyToken`
and `rbacAccess(['admin','super_admin'])` have attached the `requester`
principal.  `hasDependents` models the foreign-key violation (error code
23503) raised by the `DELETE` statement, in which case no row is removed. -/
def deleteUserHandler (hasDependents : Nat → Bool) (requester : Principal)
    (db : Db) (targetId : Nat) : RouteResp × Db :=
  if targetId == requester.user_id then
    (⟨403, some "You cannot delete your own account"⟩, db)
  else
    match db.users.find? (fun u => u.user_id == targetId) with
    | none => (⟨404, some "User not found"⟩, db)
    | some target =>
      if target.user_role = "super_admin" then
        (⟨403, some "Super Admin cannot be deleted"⟩, db)
      else if requester.role = "admin" ∧ target.user_role ≠ "member" then
        (⟨403, some "Admins can only delete members"⟩, db)
      else if hasDependents targetId then
        (⟨400, some "Cannot delete user: dependent records exist"⟩, db)
      else
        (⟨200, some "User deleted successfully"⟩,
         { db with users := db.users.filter (fun u => u.user_id != targetId) })

/-- Row of the `volunteers` table (the columns that matter to access
decisions; the remaining field-mapping columns carry no decision). -/
structure Volunteer where
  id : Nat
  volunteer_frf_name : String
  volunteer_frf_owner : String
  email : String
deriving DecidableEq, Repr

/-- Insertion step for `ORDER BY volunteer_frf_name ASC`. -/
def insertByName (v : Volunteer) : List Volunteer → List Volunteer
  | [] => [v]
  | w :: ws =>
    if v.volunteer_frf_name ≤ w.volunteer_frf_name then v :: w :: ws
    else w :: insertByName v ws

/-- Name-ordered listing (`ORDER BY volunteer_frf_name ASC`). -/
def sortByName (vs : List Volunteer) : List Volunteer :=
  vs.foldr insertByName []

/-- The `GET /` route of `routes/volunteers.js` exactly as registered: the
route attaches no middleware at all — the handler immediately returns every
row of the `volunteers` table with status 200, whatever the request carries
in its authorization header or cookie. -/
def volunteersIndex (vols : List Volunteer) (_authHeader : String)
    (_cookieToken : Option String) : Nat × List Volunteer :=
  (200, sortByName vols)

/-- Row of the `board_members` table (columns projected by `GET /`). -/
structure BoardMember where
  id : Nat
  board_frf_name : String
  email : String
  board_frf_owner : String
deriving DecidableEq, Repr

/-- The `GET /` route of `routes/board.js` as registered: no middleware; the
handler returns the projected `board_members` rows with status 200 (the
`ORDER BY board_frf_name` changes order only and is kept abstractly as the
row list). -/
def boardIndex (members : List BoardMember) (_authHeader : String)
    (_cookieToken : Option String) : Nat × List BoardMember :=
  (200, members)

/-!
Theorems.  Each claim of the specification is settled against the embedding
above; counterexample theorems evaluate the embedded routes at explicit
concrete inputs.
-/

/-- Claim C1: the spec states that `GET /pending` and `POST /:id/approve` are
admin/super_admin only.  The code violates this: `rbacAccess` ignores the
role list its call sites pass, so the fixed role-verb table alone decides.
Concretely, a verified principal of role `member` passes the gate of
`GET /pending` and the pending list is read, and a principal of role `staff`
passes the gate of `POST /:id/approve` and the approval transition occurs. -/
theorem nonadmin_reaches_admin_only_routes :
    getPending
      (fun t => if t = "member-token" then some ⟨2, "m@x.com", "member"⟩ else none)
      "Bearer member-token" none
      ⟨[⟨5, "pend", "p@x.com", "h", "member", "PENDING", 0, none⟩], [], []⟩ =
      .rows [⟨5, "pend", "p@x.com", "h", "member", "PENDING", 0, none⟩] ∧
    approveUser
      (fun t => if t = "staff-token" then some ⟨3, "s@x.com", "staff"⟩ else none)
      "Bearer staff-token" none
      ⟨[⟨5, "pend", "p@x.com", "h", "member", "PENDING", 0, none⟩], [], []⟩ 5 =
      (.done ⟨5, "pend", "p@x.com", "h", "member", "APPROVED", 0, none⟩,
       ⟨[⟨5, "pend", "p@x.com", "h", "member", "APPROVED", 0, none⟩], [], []⟩) := by
  exact ⟨by decide, by decide⟩

/-- Claim C2: the spec states that every protected record route runs the
authentication middleware and that a request with no token never receives
record data.  The code violates this: the `GET /` routes of the volunteers
and board routers register no middleware at all, so a request carrying no
authorization header and no cookie — exactly the request `verifyToken` would
reject with 401 `Missing token` — is answered 200 with the table rows. -/
theorem unauthenticated_request_receives_records :
    volunteersIndex [⟨1, "Ann", "owner@x.com", "a@x.com"⟩] "" none =
      (200, [⟨1, "Ann", "owner@x.com", "a@x.com"⟩]) ∧
    boardIndex [⟨1, "Bob", "b@x.com", "owner@x.com"⟩] "" none =
      (200, [⟨1, "Bob", "b@x.com", "owner@x.com"⟩]) ∧
    (∀ verify : String → Option Principal,
      verifyToken [] verify "" none = .reject 401 "Missing token") := by
  exact ⟨by decide, by decide, fun _ => rfl⟩

/-- Claim C4: the spec states that a non-privileged caller whose email equals
the record's owner column is granted access.  The code violates this at every
real mount point: the routers are mounted at `/api/v1/students` etc., the
entity key is the last path segment (`students`), but the configuration map
is keyed by `students_frf_owner`-style names, so the lookup fails and the
middleware answers 400 `unknown entity` — the owner comparison is never
reached.  The second conjunct shows the granting behavior the map keys would
produce, confirming the mismatch is the sole obstacle. -/
theorem owner_not_granted_at_mounted_path :
    requireOwnerOrAdmin (fun _ _ _ _ => some "owner@x.com")
      (some ⟨9, "owner@x.com", "member"⟩) "/api/v1/students" (some "7") =
      .reject 400 "requireOwnerOrAdmin: unknown entity" ∧
    requireOwnerOrAdmin (fun _ _ _ _ => some "owner@x.com")
      (some ⟨9, "owner@x.com", "member"⟩) "/api/v1/students_frf_owner" (some "7") =
      .next := by
  exact ⟨by decide, by decide⟩

/-- Claim C5: a token present in the revocation list is rejected by
`verifyToken` with 401 independently of the cryptographic verification
outcome (the `verify` function is arbitrary, so this covers a structurally
valid, unexpired token), and the logout insert into `revoked_tokens` is
idempotent. -/
theorem revoked_token_rejected_and_revoke_idempotent :
    (∀ (revoked : List String) (verify : String → Option Principal)
        (authHeader : String) (cookieToken : Option String) (t : String),
        extractToken authHeader cookieToken = some t → t ∈ revoked →
        verifyToken revoked verify authHeader cookieToken =
          .reject 401 "Token revoked. Please log in again.") ∧
    (∀ (revoked : List String) (t : String),
        t ∈ revoked → revokeInsert revoked t = revoked) ∧
    (∀ (revoked : List String) (t : String),
        revokeInsert (revokeInsert revoked t) t = revokeInsert revoked t) := by
  refine ⟨?_, ?_, ?_⟩
  · intro revoked verify authHeader cookieToken t hx hm
    simp [verifyToken, hx, hm]
  · intro revoked t hm
    simp [revokeInsert, hm]
  · intro revoked t
    by_cases hm : t ∈ revoked
    · simp [revokeInsert, hm]
    · simp [revokeInsert, hm]

/-- Witness for C5 at a concrete revoked token: the extraction resolves the
bearer header, the token is in the list, and the rejection is produced even
though `verify` would accept the token. -/
theorem revoked_token_rejected_witness :
    extractToken "Bearer tok" none = some "tok" ∧ "tok" ∈ ["tok"] ∧
    verifyToken ["tok"] (fun _ => some ⟨1, "a@x.com", "admin"⟩) "Bearer tok" none =
      .reject 401 "Token revoked. Please log in again." :=
  ⟨by decide, by decide,
   revoked_token_rejected_and_revoke_idempotent.1 ["tok"]
     (fun _ => some ⟨1, "a@x.com", "admin"⟩) "Bearer tok" none "tok"
     (by decide) (by decide)⟩

/-- Claim C6: for an account whose `approval_status` is not `APPROVED`,
login answers 403 with the store unchanged, for every submitted password and
every comparison function, and the message distinguishes `REJECTED` from the
pending case. -/
theorem login_unapproved_forbidden
    (compare : String → String → Bool) (sign : Principal → String)
    (now : Nat) (rt : String) (dev : Option String)
    (db : Db) (email password : String) (u : Account)
    (hf : findUserByEmail db email = some u)
    (ha : u.approval_status ≠ "APPROVED") :
    login compare sign now rt dev db email password =
      (⟨403, none,
        some (if u.approval_status = "REJECTED"
          then "Account has been rejected by admin"
          else "Account pending admin approval"), none, none⟩, db) := by
  simp [login, hf, ha]

/-- Witness for C6: a rejected account with the correct password still gets
the 403 rejection message. -/
theorem login_unapproved_forbidden_witness :
    findUserByEmail ⟨[⟨1, "u", "a@b.com", "pw", "member", "REJECTED", 0, none⟩], [], []⟩
      "a@b.com" = some ⟨1, "u", "a@b.com", "pw", "member", "REJECTED", 0, none⟩ ∧
    login (fun p h => p == h) (fun _ => "jwt") 0 "rt" none
      ⟨[⟨1, "u", "a@b.com", "pw", "member", "REJECTED", 0, none⟩], [], []⟩ "a@b.com" "pw" =
      (⟨403, none, some "Account has been rejected by admin", none, none⟩,
       ⟨[⟨1, "u", "a@b.com", "pw", "member", "REJECTED", 0, none⟩], [], []⟩) := by
  refine ⟨by decide, ?_⟩
  have h := login_unapproved_forbidden (fun p h => p == h) (fun _ => "jwt") 0 "rt" none
    ⟨[⟨1, "u", "a@b.com", "pw", "member", "REJECTED", 0, none⟩], [], []⟩ "a@b.com" "pw"
    ⟨1, "u", "a@b.com", "pw", "member", "REJECTED", 0, none⟩ (by decide) (by decide)
  simpa using h

/-- Claim C10: the middleware produced by `rbacAccess` is extensionally
independent of the argument list passed at the call site, and a role absent
from the fixed table never passes the gate. -/
theorem rbacAccess_args_ignored_and_default_deny :
    (∀ (allowedRoles : List String) (role : Option String) (m : Method),
        rbacAccess allowedRoles role m = rbacAccess [] role m) ∧
    (∀ (allowedRoles : List String) (r : String) (m : Method),
        r ∉ ["member", "staff", "admin", "finance", "super_admin"] →
        rbacAccess allowedRoles (some r) m ≠ .next) := by
  constructor
  · intro _ _ _
    rfl
  · intro allowedRoles r m hr
    simp only [List.mem_cons, List.not_mem_nil, or_false, not_or] at hr
    obtain ⟨h1, h2, h3, h4, h5⟩ := hr
    simp only [rbacAccess, rbacRules, h1, h2, h3, h4, h5, if_false]
    split
    · simp
    · simp

/-- Witness for C10: the role list at the `GET /pending` call site does not
let an unlisted role through. -/
theorem rbacAccess_default_deny_witness :
    ("ghost" ∉ ["member", "staff", "admin", "finance", "super_admin"]) ∧
    rbacAccess ["admin", "super_admin"] (some "ghost") .GET ≠ .next :=
  ⟨by decide,
   rbacAccess_args_ignored_and_default_deny.2 ["admin", "super_admin"] "ghost" .GET
     (by decide)⟩

/-- Claim C7: a successful login (approved account, lockout inactive,
matching password) answers 200 with both cookies set, appends exactly one
refresh-session row for the account, resets `failed_attempts` to 0 and clears
`locked_until`, and touches nothing else in the store. -/
theorem login_success_resets_and_issues
    (compare : String → String → Bool) (sign : Principal → String)
    (now : Nat) (rt : String) (dev : Option String)
    (db : Db) (email password : String) (u : Account)
    (hf : findUserByEmail db email = some u)
    (ha : u.approval_status = "APPROVED")
    (hl : lockActive u.locked_until now = false)
    (hc : compare password u.password_hash = true) :
    login compare sign now rt dev db email password =
      (⟨200, some "Login successful", none, some (createAccessToken sign u), some rt⟩,
       { db with
          users := db.users.map fun x =>
            if x.user_id == u.user_id then
              { x with failed_attempts := 0, locked_until := none }
            else x,
          refresh_tokens := db.refresh_tokens ++
            [⟨u.user_id, rt, now, now + refreshDays * 24 * 60 * 60 * 1000, dev⟩] }) ∧
    (∀ x ∈ (login compare sign now rt dev db email password).2.users,
      x.user_id = u.user_id → x.failed_attempts = 0 ∧ x.locked_until = none) := by
  have h1 : login compare sign now rt dev db email password =
      (⟨200, some "Login successful", none, some (createAccessToken sign u), some rt⟩,
       { db with
          users := db.users.map fun x =>
            if x.user_id == u.user_id then
              { x with failed_attempts := 0, locked_until := none }
            else x,
          refresh_tokens := db.refresh_tokens ++
            [⟨u.user_id, rt, now, now + refreshDays * 24 * 60 * 60 * 1000, dev⟩] }) := by
    simp [login, hf, ha, hl, hc]
  refine ⟨h1, ?_⟩
  rw [h1]
  intro x hx hid
  simp only [List.mem_map] at hx
  obtain ⟨y, _, rfl⟩ := hx
  by_cases hyy : y.user_id = u.user_id
  · simp [hyy]
  · simp only [beq_iff_eq, hyy, if_false] at hid ⊢

/-- Witness for C7: a concrete approved, unlocked account logging in with the
correct password. -/
theorem login_success_resets_and_issues_witness :
    findUserByEmail ⟨[⟨1, "u", "a@b.com", "pw", "member", "APPROVED", 3, none⟩], [], []⟩
      "a@b.com" = some ⟨1, "u", "a@b.com", "pw", "member", "APPROVED", 3, none⟩ ∧
    login (fun p h => p == h) (fun _ => "jwt") 1000 "rt" none
      ⟨[⟨1, "u", "a@b.com", "pw", "member", "APPROVED", 3, none⟩], [], []⟩ "a@b.com" "pw" =
      (⟨200, some "Login successful", none, some "jwt", some "rt"⟩,
       ⟨[⟨1, "u", "a@b.com", "pw", "member", "APPROVED", 0, none⟩],
        [⟨1, "rt", 1000, 1000 + refreshDays * 24 * 60 * 60 * 1000, none⟩], []⟩) := by
  refine ⟨by decide, ?_⟩
  have h := (login_success_resets_and_issues (fun p h => p == h) (fun _ => "jwt")
    1000 "rt" none ⟨[⟨1, "u", "a@b.com", "pw", "member", "APPROVED", 3, none⟩], [], []⟩
    "a@b.com" "pw" ⟨1, "u", "a@b.com", "pw", "member", "APPROVED", 3, none⟩
    (by decide) (by decide) (by decide) (by decide)).1
  rw [h]
  decide

/-- Claim C8: the deletion rules of `DELETE /:id`: 403 on self-deletion, 404
on an unknown target, 403 on a super_admin target, 403 when an admin
requester targets a non-member, 400 when dependent records block the delete,
and otherwise 200 with the target row removed; in every non-200 case the
store is unchanged. -/
theorem deleteUser_rules (hasDependents : Nat → Bool) (requester : Principal)
    (db : Db) (targetId : Nat) :
    (targetId = requester.user_id →
      deleteUserHandler hasDependents requester db targetId =
        (⟨403, some "You cannot delete your own account"⟩, db)) ∧
    (targetId ≠ requester.user_id →
      db.users.find? (fun u => u.user_id == targetId) = none →
      deleteUserHandler hasDependents requester db targetId =
        (⟨404, some "User not found"⟩, db)) ∧
    (∀ target, targetId ≠ requester.user_id →
      db.users.find? (fun u => u.user_id == targetId) = some target →
      target.user_role = "super_admin" →
      deleteUserHandler hasDependents requester db targetId =
        (⟨403, some "Super Admin cannot be deleted"⟩, db)) ∧
    (∀ target, targetId ≠ requester.user_id →
      db.users.find? (fun u => u.user_id == targetId) = some target →
      target.user_role ≠ "super_admin" →
      requester.role = "admin" → target.user_role ≠ "member" →
      deleteUserHandler hasDependents requester db targetId =
        (⟨403, some "Admins can only delete members"⟩, db)) ∧
    (∀ target, targetId ≠ requester.user_id →
      db.users.find? (fun u => u.user_id == targetId) = some target →
      target.user_role ≠ "super_admin" →
      (requester.role = "admin" → target.user_role = "member") →
      hasDependents targetId = true →
      deleteUserHandler hasDependents requester db targetId =
        (⟨400, some "Cannot delete user: dependent records exist"⟩, db)) ∧
    (∀ target, targetId ≠ requester.user_id →
      db.users.find? (fun u => u.user_id == targetId) = some target →
      target.user_role ≠ "super_admin" →
      (requester.role = "admin" → target.user_role = "member") →
      hasDependents targetId = false →
      deleteUserHandler hasDependents requester db targetId =
        (⟨200, some "User deleted successfully"⟩,
         { db with users := db.users.filter (fun u => u.user_id != targetId) })) := by
  refine ⟨?_, ?_, ?_, ?_, ?_, ?_⟩
  · intro h
    simp [deleteUserHandler, h]
  · intro hne hf
    simp [deleteUserHandler, hne, hf]
  · intro target hne hf hsa
    simp [deleteUserHandler, hne, hf, hsa]
  · intro target hne hf hsa hadm hnm
    simp [deleteUserHandler, hne, hf, hsa, hadm, hnm]
  · intro target hne hf hsa himp hdep
    have hcond : ¬(requester.role = "admin" ∧ target.user_role ≠ "member") :=
      fun h => h.2 (himp h.1)
    simp [deleteUserHandler, hne, hf, hsa, hcond, hdep]
  · intro target hne hf hsa himp hdep
    have hcond : ¬(requester.role = "admin" ∧ target.user_role ≠ "member") :=
      fun h => h.2 (himp h.1)
    simp [deleteUserHandler, hne, hf, hsa, hcond, hdep]

/-- Witness for C8: a concrete admin attempting self-deletion is refused. -/
theorem deleteUser_rules_witness :
    deleteUserHandler (fun _ => false) ⟨1, "a@x.com", "admin"⟩
      ⟨[⟨1, "a", "a@x.com", "h", "admin", "APPROVED", 0, none⟩], [], []⟩ 1 =
      (⟨403, some "You cannot delete your own account"⟩,
       ⟨[⟨1, "a", "a@x.com", "h", "admin", "APPROVED", 0, none⟩], [], []⟩) :=
  (deleteUser_rules (fun _ => false) ⟨1, "a@x.com", "admin"⟩
    ⟨[⟨1, "a", "a@x.com", "h", "admin", "APPROVED", 0, none⟩], [], []⟩ 1).1 rfl

/-- Claim C9: `POST /refresh` never writes to the store (no rotation, no
replacement, no sweeping of expired rows) and answers 400 with no cookie
presented, 401 when every matching session row is expired (or none exists),
and 200 with a fresh access-token cookie when an unexpired row and its user
are found. -/
theorem refresh_contract (sign : Principal → String) (now : Nat) (db : Db) :
    (∀ cookieToken, (refresh sign now db cookieToken).2 = db) ∧
    ((refresh sign now db none).1 = ⟨400, some "Missing refresh token", none⟩) ∧
    (∀ t, t ≠ "" →
      (∀ r ∈ db.refresh_tokens, r.refresh_token = t → r.expires_at ≤ now) →
      (refresh sign now db (some t)).1 = ⟨401, some "Invalid refresh token", none⟩) ∧
    (∀ t row user, t ≠ "" →
      db.refresh_tokens.find?
        (fun r => r.refresh_token == t && decide (now < r.expires_at)) = some row →
      db.users.find? (fun u => u.user_id == row.user_id) = some user →
      (refresh sign now db (some t)).1 = ⟨200, none, some (createAccessToken sign user)⟩) := by
  refine ⟨?_, rfl, ?_, ?_⟩
  · intro c
    cases c with
    | none => rfl
    | some t =>
      by_cases ht : t = ""
      · simp [refresh, ht]
      · simp only [refresh, ht, if_false]
        split
        · rfl
        · split
          · rfl
          · rfl
  · intro t ht hexp
    have hfind : db.refresh_tokens.find?
        (fun r => r.refresh_token == t && decide (now < r.expires_at)) = none := by
      rw [List.find?_eq_none]
      intro r hr
      simp only [Bool.and_eq_true, beq_iff_eq, decide_eq_true_eq, not_and]
      intro hrt hlt
      exact absurd hlt (Nat.not_lt.mpr (hexp r hr hrt))
    simp [refresh, ht, hfind]
  · intro t row user ht hfr hfu
    simp [refresh, ht, hfr, hfu]

/-- Witness for C9: a concrete store with one unexpired session row: the
refresh succeeds, and by the same theorem the store is returned unchanged. -/
theorem refresh_contract_witness :
    (refresh (fun _ => "jwt") 50
      ⟨[⟨1, "u", "a@b.com", "h", "member", "APPROVED", 0, none⟩],
       [⟨1, "r1", 0, 100, none⟩], []⟩ (some "r1")).1 = ⟨200, none, some "jwt"⟩ ∧
    (refresh (fun _ => "jwt") 50
      ⟨[⟨1, "u", "a@b.com", "h", "member", "APPROVED", 0, none⟩],
       [⟨1, "r1", 0, 100, none⟩], []⟩ (some "r1")).2 =
      ⟨[⟨1, "u", "a@b.com", "h", "member", "APPROVED", 0, none⟩],
       [⟨1, "r1", 0, 100, none⟩], []⟩ :=
  ⟨(refresh_contract (fun _ => "jwt") 50
      ⟨[⟨1, "u", "a@b.com", "h", "member", "APPROVED", 0, none⟩],
       [⟨1, "r1", 0, 100, none⟩], []⟩).2.2.2 "r1" ⟨1, "r1", 0, 100, none⟩
      ⟨1, "u", "a@b.com", "h", "member", "APPROVED", 0, none⟩
      (by decide) (by decide) (by decide),
   (refresh_contract (fun _ => "jwt") 50
      ⟨[⟨1, "u", "a@b.com", "h", "member", "APPROVED", 0, none⟩],
       [⟨1, "r1", 0, 100, none⟩], []⟩).1 (some "r1")⟩

/-- Claim C3: starting from an approved account with a clean failure counter,
five consecutive failed logins (arbitrary wrong passwords, at arbitrary
times) leave the account with `failed_attempts = 5` and
`locked_until = t5 + 15 minutes`; a sixth attempt at any time `t6` inside
that window — with an arbitrary password, hence also the correct one — is
answered 403 by the lockout gate, which runs before the password comparison,
with a stated remaining time of at most 15 minutes and no state change. -/
theorem login_sixth_attempt_locked
    (compare : String → String → Bool) (sign : Principal → String)
    (uid : Nat) (un em ph role : String) (p1 p2 p3 p4 p5 pw rt : String)
    (t1 t2 t3 t4 t5 t6 : Nat) (dev : Option String)
    (h1 : compare p1 ph = false) (h2 : compare p2 ph = false)
    (h3 : compare p3 ph = false) (h4 : compare p4 ph = false)
    (h5 : compare p5 ph = false)
    (hle : t5 ≤ t6) (hwin : t6 < t5 + lockIntervalMs) :
    (login compare sign t5 rt dev
      (login compare sign t4 rt dev
        (login compare sign t3 rt dev
          (login compare sign t2 rt dev
            (login compare sign t1 rt dev
              ⟨[⟨uid, un, em, ph, role, "APPROVED", 0, none⟩], [], []⟩
              em p1).2 em p2).2 em p3).2 em p4).2 em p5).2 =
      ⟨[⟨uid, un, em, ph, role, "APPROVED", 5, some (t5 + lockIntervalMs)⟩], [], []⟩ ∧
    login compare sign t6 rt dev
      ⟨[⟨uid, un, em, ph, role, "APPROVED", 5, some (t5 + lockIntervalMs)⟩], [], []⟩ em pw =
      (⟨403, none,
        some ("Account locked. Try again in " ++
          toString ((t5 + lockIntervalMs - t6 + 59999) / 60000) ++ " minutes."),
        none, none⟩,
       ⟨[⟨uid, un, em, ph, role, "APPROVED", 5, some (t5 + lockIntervalMs)⟩], [], []⟩) ∧
    (t5 + lockIntervalMs - t6 + 59999) / 60000 ≤ 15 := by
  have e1 : login compare sign t1 rt dev
      ⟨[⟨uid, un, em, ph, role, "APPROVED", 0, none⟩], [], []⟩ em p1 =
      (⟨401, none, some "Invalid credentials", none, none⟩,
       ⟨[⟨uid, un, em, ph, role, "APPROVED", 1, none⟩], [], []⟩) := by
    simp [login, findUserByEmail, lockActive, h1]
  have e2 : login compare sign t2 rt dev
      ⟨[⟨uid, un, em, ph, role, "APPROVED", 1, none⟩], [], []⟩ em p2 =
      (⟨401, none, some "Invalid credentials", none, none⟩,
       ⟨[⟨uid, un, em, ph, role, "APPROVED", 2, none⟩], [], []⟩) := by
    simp [login, findUserByEmail, lockActive, h2]
  have e3 : login compare sign t3 rt dev
      ⟨[⟨uid, un, em, ph, role, "APPROVED", 2, none⟩], [], []⟩ em p3 =
      (⟨401, none, some "Invalid credentials", none, none⟩,
       ⟨[⟨uid, un, em, ph, role, "APPROVED", 3, none⟩], [], []⟩) := by
    simp [login, findUserByEmail, lockActive, h3]
  have e4 : login compare sign t4 rt dev
      ⟨[⟨uid, un, em, ph, role, "APPROVED", 3, none⟩], [], []⟩ em p4 =
      (⟨401, none, some "Invalid credentials", none, none⟩,
       ⟨[⟨uid, un, em, ph, role, "APPROVED", 4, none⟩], [], []⟩) := by
    simp [login, findUserByEmail, lockActive, h4]
  have e5 : login compare sign t5 rt dev
      ⟨[⟨uid, un, em, ph, role, "APPROVED", 4, none⟩], [], []⟩ em p5 =
      (⟨401, none, some "Invalid credentials", none, none⟩,
       ⟨[⟨uid, un, em, ph, role, "APPROVED", 5, some (t5 + lockIntervalMs)⟩], [], []⟩) := by
    simp [login, findUserByEmail, lockActive, h5]
  have e6 : login compare sign t6 rt dev
      ⟨[⟨uid, un, em, ph, role, "APPROVED", 5, some (t5 + lockIntervalMs)⟩], [], []⟩ em pw =
      (⟨403, none,
        some ("Account locked. Try again in " ++
          toString ((t5 + lockIntervalMs - t6 + 59999) / 60000) ++ " minutes."),
        none, none⟩,
       ⟨[⟨uid, un, em, ph, role, "APPROVED", 5, some (t5 + lockIntervalMs)⟩], [], []⟩) := by
    simp [login, findUserByEmail, lockActive, hwin]
  have hbound : (t5 + lockIntervalMs - t6 + 59999) / 60000 ≤ 15 := by
    have hx : t5 + lockIntervalMs - t6 + 59999 ≤ 959999 := by
      simp only [lockIntervalMs]
      omega
    calc (t5 + lockIntervalMs - t6 + 59999) / 60000 ≤ 959999 / 60000 :=
          Nat.div_le_div_right hx
      _ = 15 := by norm_num
  refine ⟨?_, e6, hbound⟩
  rw [e1, e2, e3, e4, e5]

/-- Witness for C3: a concrete account, five wrong passwords at time 0, then
the correct password one minute later: 403 with 14 minutes remaining. -/
theorem login_sixth_attempt_locked_witness :
    login (fun p h => p == h) (fun _ => "jwt") 60000 "rt" none
      ⟨[⟨1, "u", "a@b.com", "secret", "member", "APPROVED", 5, some (0 + lockIntervalMs)⟩],
       [], []⟩ "a@b.com" "secret" =
      (⟨403, none, some "Account locked. Try again in 14 minutes.", none, none⟩,
       ⟨[⟨1, "u", "a@b.com", "secret", "member", "APPROVED", 5, some (0 + lockIntervalMs)⟩],
        [], []⟩) := by
  have h := (login_sixth_attempt_locked (fun p h => p == h) (fun _ => "jwt")
    1 "u" "a@b.com" "secret" "member" "bad" "bad" "bad" "bad" "bad" "secret" "rt"
    0 0 0 0 0 60000 none rfl rfl rfl rfl rfl (by omega) (by decide)).2.1
  rw [h]
  decide

end Ngo
